import Mathlib

/-!
Verification of the reliability subsystem (panic hook and main-thread hang
watchdog) of `crates/zed/src/reliability.rs`, together with the system-facts
collector of `crates/feedback/src/system_specs.rs`.

The Rust code is shallowly embedded: the panic hook body is modelled as a pure
function from its inputs (release channel, panic payload, source location,
captured stack frames, I/O outcomes) to a trace of observable effects plus the
built `Panic` record; the hang watchdog loop is modelled as a step function on
a channel/signal state; the SIGUSR2 capture handler is modelled as a function
on the shared backtrace buffer.
-/

namespace Reliability

/-- Release channels, mirroring the `release_channel` crate's
`ReleaseChannel` enum (variants used by this code: Dev, Nightly, Preview,
Stable). -/
inductive ReleaseChannel
  | dev
  | nightly
  | preview
  | stable
  deriving DecidableEq, Repr

/-- Modelled from the spec: the `release_channel` crate is external to the
shown sources; its `display_name` is modelled from the spec's scenario, which
states that release channel `Stable` yields the record field `"Stable"`. -/
def ReleaseChannel.display_name : ReleaseChannel → String
  | .dev => "Dev"
  | .nightly => "Nightly"
  | .preview => "Preview"
  | .stable => "Stable"

/-- The dynamic type of a panic payload, as the hook's two `downcast_ref`
calls distinguish it: a `&str`, an owned `String`, or any other `Any` type. -/
inductive PanicPayload
  | strRef (s : String)
  | strOwned (s : String)
  | other
  deriving DecidableEq, Repr

/-- Lines 38-43 of `reliability.rs`: downcast the payload to `&str`, else to
`String`, else substitute the fixed placeholder `"Box<Any>"`. -/
def payloadMessage : PanicPayload → String
  | .strRef s => s
  | .strOwned s => s
  | .other => "Box<Any>"

/-- A panic's source location (`std::panic::Location`): file, line, column. -/
structure Location where
  file : String
  line : Nat
  column : Nat
  deriving DecidableEq, Repr

/-- `telemetry_events::LocationData` as constructed at lines 83-86: only file
and line are kept. -/
structure LocationData where
  file : String
  line : Nat
  deriving DecidableEq, Repr

/-- The panic info handed to the hook: payload and optional source location. -/
structure PanicInfo where
  payload : PanicPayload
  location : Option Location
  deriving DecidableEq, Repr

/-- `telemetry_events::Panic`, with exactly the fields the hook populates at
lines 80-96 (the FailureRecord of the spec). -/
structure Panic where
  thread : String
  payload : String
  location_data : Option LocationData
  app_version : String
  release_channel : String
  os_name : String
  os_version : Option String
  architecture : String
  panicked_on : Int
  backtrace : List String
  installation_id : Option String
  session_id : String
  deriving DecidableEq, Repr

/-- `Iterator::position`: index of the first element satisfying `p`. -/
def position (p : α → Bool) : List α → Option Nat
  | [] => none
  | x :: xs => if p x then some 0 else (position p xs).map (· + 1)

/-- Lines 72-78: find the first frame named `"rust_begin_unwind"` and
`drain(0..=ix)` — discard it and everything before it; if absent, keep the
capture whole. -/
def stripUnwindFrames (backtrace : List String) : List String :=
  match position (fun name => name = "rust_begin_unwind") backtrace with
  | some ix => backtrace.drop (ix + 1)
  | none => backtrace

/-- Lines 61-70: flatten the captured frames into resolved symbol names —
each frame carries a list of symbols, each with an optional name; nameless
symbols are filtered out. -/
def resolveFrameNames (frames : List (List (Option String))) : List String :=
  frames.flatMap (fun symbols => symbols.filterMap id)

/-- Lines 80-96: construction of the `telemetry_events::Panic` record.
`thread_name` arrives already defaulted (line 36), `payload` already
extracted (lines 38-43), and the backtrace field holds the capture after the
unwind-machinery frames are stripped (lines 72-78). `os_name` and
`os_version` are written as the literal `"".to_string()` and `None`
(lines 89-90). -/
def buildPanic (thread_name : String) (payload : String)
    (location : Option Location) (app_version : String)
    (channel : ReleaseChannel) (arch : String) (now : Int)
    (rawNames : List String) (installation_id : Option String)
    (session_id : String) : Panic :=
  { thread := thread_name
    payload := payload
    location_data := location.map fun l => { file := l.file, line := l.line }
    app_version := app_version
    release_channel := channel.display_name
    os_name := ""
    os_version := none
    architecture := arch
    panicked_on := now
    backtrace := stripUnwindFrames rawNames
    installation_id := installation_id
    session_id := session_id }

/-- Observable effects of one run of the panic-hook closure. -/
inductive Effect
  | logPanic (record : Panic)
  | logIoError
  | openPanicFile (path : String) (append create : Bool)
  | writePanicLine (path : String) (contents : String)
  | flushPanicFile (path : String)
  | eprintPanic (thread : String) (payload : String) (file : String)
      (line : Nat) (column : Nat) (frames : List (List (Option String)))
  | exitProcess (code : Int)
  | abortProcess
  deriving DecidableEq, Repr

/-- Outcomes of the fallible I/O steps of the hook's persistence path: the
pretty serialization for logging (line 98), the compact serialization
(line 103), the file open (lines 106-110), the `writeln!` (line 112) and the
`flush` (line 113). -/
structure IoOutcomes where
  serializePrettyOk : Bool
  serializeOk : Bool
  openOk : Bool
  writeOk : Bool
  flushOk : Bool
  deriving DecidableEq, Repr

/-- Modelled from the spec: `serde_json` is an external crate; the spec says
the persisted contents are the single-line JSON serialization of the
FailureRecord. A minimal JSON string escape. -/
def jsonStr (s : String) : String :=
  "\"" ++ String.join (s.toList.map fun c =>
    if c = '"' then "\\\""
    else if c = '\\' then "\\\\"
    else if c = '\n' then "\\n"
    else String.singleton c) ++ "\""

/-- Modelled from the spec: `serde_json::to_string` of the record — one line
of JSON holding every field of the FailureRecord. -/
def serializePanic (p : Panic) : String :=
  "\x7b\"thread\":" ++ jsonStr p.thread ++
  ",\"payload\":" ++ jsonStr p.payload ++
  ",\"location_data\":" ++
    (match p.location_data with
     | some l => "\x7b\"file\":" ++ jsonStr l.file ++ ",\"line\":" ++ toString l.line ++ "\x7d"
     | none => "null") ++
  ",\"app_version\":" ++ jsonStr p.app_version ++
  ",\"release_channel\":" ++ jsonStr p.release_channel ++
  ",\"os_name\":" ++ jsonStr p.os_name ++
  ",\"os_version\":" ++ (match p.os_version with
     | some v => jsonStr v
     | none => "null") ++
  ",\"architecture\":" ++ jsonStr p.architecture ++
  ",\"panicked_on\":" ++ toString p.panicked_on ++
  ",\"backtrace\":[" ++ String.intercalate "," (p.backtrace.map jsonStr) ++ "]" ++
  ",\"installation_id\":" ++ (match p.installation_id with
     | some i => jsonStr i
     | none => "null") ++
  ",\"session_id\":" ++ jsonStr p.session_id ++ "\x7d"

/-- Line 105: `paths::logs_dir().join(format!("zed-{timestamp}.panic"))`. -/
def panicFilePath (logsDir timestamp : String) : String :=
  logsDir ++ "/" ++ "zed-" ++ timestamp ++ ".panic"

/-- Lines 98-118 of the hook: log the pretty-serialized record; when stdout
is not a pty, serialize compactly and append one line to the timestamped
panic file, flushing it; every I/O failure is only logged (`log_err`); then
abort the process unconditionally. -/
def hookTail (is_pty : Bool) (o : IoOutcomes) (logsDir timestamp : String)
    (panic_data : Panic) : List Effect :=
  (if o.serializePrettyOk then [Effect.logPanic panic_data] else [Effect.logIoError]) ++
  (if is_pty then []
   else if o.serializeOk then
     let path := panicFilePath logsDir timestamp
     Effect.openPanicFile path true true ::
       (if o.openOk then
          Effect.writePanicLine path (serializePanic panic_data) ::
            ((if o.writeOk then [] else [Effect.logIoError]) ++
             (Effect.flushPanicFile path ::
              (if o.flushOk then [] else [Effect.logIoError])))
        else [Effect.logIoError])
   else [Effect.logIoError]) ++
  [Effect.abortProcess]

/-- The body of the closure registered by `init_panic_hook` (lines 26-119),
for the invocation that passes the panic-count gate. Returns `none` when the
handler itself panics (the dev branch's `info.location().unwrap()` on a
location-less panic, line 46); otherwise the effect trace and the built
record (`none` on the dev path, which builds no record). -/
def initPanicHookHandler (is_pty : Bool) (channel : ReleaseChannel)
    (app_version : String) (installation_id : Option String)
    (session_id : String) (threadName : Option String) (info : PanicInfo)
    (rawFrames : List (List (Option String))) (arch : String) (now : Int)
    (timestamp logsDir : String) (o : IoOutcomes) :
    Option (List Effect × Option Panic) :=
  let thread_name := threadName.getD "<unnamed>"
  let payload := payloadMessage info.payload
  if channel = ReleaseChannel.dev then
    match info.location with
    | none => none
    | some location =>
        some ([Effect.eprintPanic thread_name payload location.file
                 location.line location.column rawFrames,
               Effect.exitProcess (-1)], none)
  else
    let panic_data := buildPanic thread_name payload info.location app_version
      channel arch now (resolveFrameNames rawFrames) installation_id session_id
    some (hookTail is_pty o logsDir timestamp panic_data, some panic_data)

/-- What one invocation of the hook does at the panic-count gate
(lines 27-33): the invocation whose `fetch_add` observed a prior count of 0
proceeds to report; any other spins in the yield loop forever. -/
inductive HookOutcome
  | reports
  | loopsForever
  deriving DecidableEq, Repr

/-- Lines 27-33: `prior_panic_count > 0` sends the invocation into the
infinite `yield_now` loop; only the observer of 0 continues. -/
def hookEntry (prior_panic_count : Nat) : HookOutcome :=
  if prior_panic_count > 0 then HookOutcome.loopsForever else HookOutcome.reports

/-- Line 214: the heartbeat channel's bound, `futures::channel::mpsc::channel(3)`.
Modelled from the spec: the channel itself is the external futures crate's; the
spec describes it as a bounded FIFO of capacity 3 whose non-blocking push
fails exactly when it is full. -/
def channelCapacity : Nat := 3

/-- State of the watchdog loop (lines 219-238) with a consumer that never
drains: how many tokens sit in the channel, how many SIGUSR2 signals have
been delivered to the main thread, and whether the loop has exited. -/
structure WatchdogState where
  queued : Nat
  signals : Nat
  stopped : Bool
  deriving DecidableEq, Repr

/-- One iteration of the watchdog loop (lines 223-234) under a never-draining
consumer: sleep, then `try_send` — on success continue; on a full channel
deliver SIGUSR2 to the main thread and break (only the first hang is
detected). -/
def watchdogTick (s : WatchdogState) : WatchdogState :=
  if s.stopped then s
  else if s.queued < channelCapacity then { s with queued := s.queued + 1 }
  else { queued := s.queued, signals := s.signals + 1, stopped := true }

/-- The watchdog state after `n` sleep intervals, starting from an empty
channel, no signal, loop running. -/
def watchdogRun : Nat → WatchdogState
  | 0 => { queued := 0, signals := 0, stopped := false }
  | n + 1 => watchdogTick (watchdogRun n)

/-- Line 171: the capacity reserved in the shared backtrace buffer. -/
def reservedCapacity : Nat := 100

/-- The walk inside `handle_sigusr2` (lines 184-191):
`backtrace::trace_unsynchronized` visits frames in order; the callback pushes
a frame and continues only while the buffer's length is strictly below its
capacity, and returns false (stopping the walk) once the bound is reached. -/
def captureLoop (cap : Nat) (bt : List α) : List α → List α
  | [] => bt
  | f :: rest =>
      if bt.length < cap then captureLoop cap (bt ++ [f]) rest else bt

/-- The SIGUSR2 handler body (lines 182-191): clear the shared buffer, then
walk the stack pushing frames while below capacity. `bt` is the buffer's
prior contents (discarded by `clear`, which keeps the capacity); `stack` is
the real call stack of the signalled thread. -/
def handle_sigusr2 (cap : Nat) (bt : List α) (stack : List α) : List α :=
  let cleared : List α := []
  captureLoop cap cleared stack

/-- The compile-target OS, for the `#[cfg(target_os = ...)]` conditionals. -/
inductive TargetOS
  | macos
  | linux
  | windows
  deriving DecidableEq, Repr

/-- `SystemSpecs::os_name` (system_specs.rs lines 50-64): per-target constant
(Linux appends the guessed compositor). -/
def SystemSpecs.os_name : TargetOS → String → String
  | .macos, _ => "macOS"
  | .linux, compositor => "Linux " ++ compositor
  | .windows, _ => "Windows"

/-- Setup effects of `monitor_main_thread_hangs` (lines 131-239), in program
order: install the SIGUSR2 sigaction, create the bounded heartbeat channel,
spawn the foreground drain task, spawn the background watchdog. -/
inductive MonitorEffect
  | installSigusr2Handler
  | createHeartbeatChannel (capacity : Nat)
  | spawnHeartbeatDrainTask
  | spawnWatchdog
  deriving DecidableEq, Repr

/-- Lines 131-239: `monitor_main_thread_hangs` returns immediately unless the
release channel is Dev, Nightly or Preview (lines 138-143); otherwise it
installs the signal handler, creates the capacity-3 channel and spawns the
drain and watchdog tasks. -/
def monitor_main_thread_hangs (channel : ReleaseChannel) : List MonitorEffect :=
  if channel = ReleaseChannel.dev ∨ channel = ReleaseChannel.nightly ∨
      channel = ReleaseChannel.preview then
    [MonitorEffect.installSigusr2Handler,
     MonitorEffect.createHeartbeatChannel channelCapacity,
     MonitorEffect.spawnHeartbeatDrainTask,
     MonitorEffect.spawnWatchdog]
  else []

/-- `init` (lines 122-129): the call to `monitor_main_thread_hangs` is under
`#[cfg(target_os = "macos")]`; on any other target nothing is installed. -/
def init (os : TargetOS) (channel : ReleaseChannel) : List MonitorEffect :=
  match os with
  | TargetOS.macos => monitor_main_thread_hangs channel
  | _ => []

/-! ### Helper lemmas -/

lemma captureLoop_eq_take (cap : Nat) (stack : List α) :
    ∀ bt : List α, bt.length ≤ cap →
      captureLoop cap bt stack = bt ++ stack.take (cap - bt.length) := by
  induction stack with
  | nil => intro bt _; simp [captureLoop]
  | cons f rest ih =>
      intro bt hbt
      by_cases hlt : bt.length < cap
      · rw [captureLoop, if_pos hlt, ih (bt ++ [f]) (by simp; omega)]
        have hk : cap - bt.length = (cap - (bt ++ [f]).length) + 1 := by
          simp; omega
        rw [hk, List.take_succ_cons, List.append_assoc, List.singleton_append]
      · have : cap - bt.length = 0 := by omega
        rw [captureLoop, if_neg hlt, this, List.take_zero, List.append_nil]

lemma handle_sigusr2_eq_take (cap : Nat) (bt stack : List α) :
    handle_sigusr2 cap bt stack = stack.take cap := by
  rw [handle_sigusr2]
  rw [captureLoop_eq_take cap stack [] (by simp)]
  simp

lemma position_eq_none (p : α → Bool) (l : List α) (h : ∀ x ∈ l, p x = false) :
    position p l = none := by
  induction l with
  | nil => rfl
  | cons x xs ih =>
      rw [position, if_neg (by simp [h x (List.mem_cons_self x xs)]),
        ih fun y hy => h y (List.mem_cons_of_mem x hy)]
      rfl

lemma position_append_marker (p : α → Bool) (pre post : List α) (m : α)
    (hpre : ∀ x ∈ pre, p x = false) (hm : p m = true) :
    position p (pre ++ m :: post) = some pre.length := by
  induction pre with
  | nil => simp [position, hm]
  | cons x xs ih =>
      rw [List.cons_append, position,
        if_neg (by simp [hpre x (List.mem_cons_self x xs)]),
        ih fun y hy => hpre y (List.mem_cons_of_mem x hy)]
      rfl

lemma stripUnwindFrames_marker (pre post : List String)
    (hpre : "rust_begin_unwind" ∉ pre) :
    stripUnwindFrames (pre ++ "rust_begin_unwind" :: post) = post := by
  rw [stripUnwindFrames, position_append_marker _ pre post _
    (fun x hx => by simp; exact fun h => hpre (h ▸ hx)) (by simp)]
  show List.drop (pre.length + 1) (pre ++ "rust_begin_unwind" :: post) = post
  rw [show pre ++ "rust_begin_unwind" :: post
      = (pre ++ ["rust_begin_unwind"]) ++ post by simp,
    show pre.length + 1 = (pre ++ ["rust_begin_unwind"]).length by simp,
    List.drop_left]

lemma stripUnwindFrames_no_marker (bt : List String)
    (hbt : "rust_begin_unwind" ∉ bt) :
    stripUnwindFrames bt = bt := by
  rw [stripUnwindFrames, position_eq_none _ bt
    (fun x hx => by simp; exact fun h => hbt (h ▸ hx))]

lemma getLast?_append_singleton (l : List α) (a : α) :
    (l ++ [a]).getLast? = some a := by
  rw [List.getLast?_append_cons l a []]
  rfl

lemma watchdogRun_closed (n : Nat) :
    watchdogRun n = if n ≤ channelCapacity
      then { queued := n, signals := 0, stopped := false }
      else { queued := channelCapacity, signals := 1, stopped := true } := by
  induction n with
  | zero => simp [watchdogRun, channelCapacity]
  | succ n ih =>
      rw [watchdogRun, ih]
      by_cases h : n ≤ channelCapacity
      · rw [if_pos h]
        rcases Nat.lt_or_eq_of_le h with hlt | heq
        · rw [if_pos (by omega), watchdogTick]
          simp [hlt]
        · rw [if_neg (by omega), watchdogTick]
          simp [heq]
      · rw [if_neg h, if_neg (by omega), watchdogTick]
        simp

lemma hookTail_spec (is_pty : Bool) (o : IoOutcomes) (ld ts : String)
    (p : Panic) :
    (hookTail is_pty o ld ts p).getLast? = some Effect.abortProcess ∧
    (∀ code, Effect.exitProcess code ∉ hookTail is_pty o ld ts p) ∧
    (∀ path c, Effect.writePanicLine path c ∈ hookTail is_pty o ld ts p →
      is_pty = false ∧ path = panicFilePath ld ts ∧ c = serializePanic p) ∧
    (∀ path a c, Effect.openPanicFile path a c ∈ hookTail is_pty o ld ts p →
      path = panicFilePath ld ts ∧ a = true ∧ c = true) ∧
    (is_pty = false → o.serializeOk = true → o.openOk = true →
      Effect.writePanicLine (panicFilePath ld ts) (serializePanic p)
          ∈ hookTail is_pty o ld ts p ∧
        Effect.flushPanicFile (panicFilePath ld ts) ∈ hookTail is_pty o ld ts p) ∧
    (o.serializePrettyOk = false → Effect.logIoError ∈ hookTail is_pty o ld ts p) ∧
    (is_pty = false → o.serializeOk = false →
      Effect.logIoError ∈ hookTail is_pty o ld ts p) ∧
    (is_pty = false → o.serializeOk = true → o.openOk = false →
      Effect.logIoError ∈ hookTail is_pty o ld ts p) ∧
    (is_pty = false → o.serializeOk = true → o.openOk = true → o.writeOk = false →
      Effect.logIoError ∈ hookTail is_pty o ld ts p) ∧
    (is_pty = false → o.serializeOk = true → o.openOk = true → o.flushOk = false →
      Effect.logIoError ∈ hookTail is_pty o ld ts p) := by
  obtain ⟨sp, so, oo, wo, fo⟩ := o
  refine ⟨getLast?_append_singleton _ _, ?_⟩
  cases is_pty <;> cases sp <;> cases so <;> cases oo <;> cases wo <;> cases fo <;>
    simp [hookTail]

/-! ### Claims -/

/-- C3: for every invocation of the SIGUSR2 snapshot handler and every real
stack depth (including deeper than the reserved capacity), the buffer after
capture equals the stack truncated at capacity, and its length never exceeds
the capacity: the handler clears, pushes only while strictly below the bound
and stops walking instead of growing. -/
theorem c3_sigusr2_capture_bounded {α : Type} (cap : Nat) (bt stack : List α) :
    handle_sigusr2 cap bt stack = stack.take cap ∧
    (handle_sigusr2 cap bt stack).length ≤ cap := by
  refine ⟨handle_sigusr2_eq_take cap bt stack, ?_⟩
  rw [handle_sigusr2_eq_take cap bt stack]
  simp

/-- C4: the frames field of the built FailureRecord equals the suffix of the
capture strictly after the first occurrence of `"rust_begin_unwind"` (the
marker and everything before it discarded); with no marker the capture is
kept whole. -/
theorem c4_unwind_frames_stripped (tn payload : String) (loc : Option Location)
    (av : String) (ch : ReleaseChannel) (arch : String) (now : Int)
    (inst : Option String) (sess : String) (pre post whole : List String)
    (hpre : "rust_begin_unwind" ∉ pre) (hwhole : "rust_begin_unwind" ∉ whole) :
    (buildPanic tn payload loc av ch arch now
      (pre ++ "rust_begin_unwind" :: post) inst sess).backtrace = post ∧
    (buildPanic tn payload loc av ch arch now whole inst sess).backtrace = whole := by
  constructor
  · show stripUnwindFrames (pre ++ "rust_begin_unwind" :: post) = post
    exact stripUnwindFrames_marker pre post hpre
  · show stripUnwindFrames whole = whole
    exact stripUnwindFrames_no_marker whole hwhole

/-- Witness for C4 at a concrete capture. -/
theorem c4_unwind_frames_stripped_witness :
    (buildPanic "main" "boom" none "1.0" ReleaseChannel.stable "x86_64" 0
      (["std::panicking::begin_panic"] ++
        "rust_begin_unwind" :: ["app::run", "main"]) none "s").backtrace
      = ["app::run", "main"] ∧
    (buildPanic "main" "boom" none "1.0" ReleaseChannel.stable "x86_64" 0
      ["app::run", "main"] none "s").backtrace = ["app::run", "main"] := by
  have h := c4_unwind_frames_stripped "main" "boom" none "1.0"
    ReleaseChannel.stable "x86_64" 0 none "s"
    ["std::panicking::begin_panic"] ["app::run", "main"]
    ["app::run", "main"] (by decide) (by decide)
  exact h

/-- C5: the record's message is the payload's string value for string-like
payloads (`&str` or `String`) and the fixed placeholder `"Box<Any>"` for any
other payload type (the handler is total there); the concrete scenario —
payload `"boom"`, thread `"worker-3"`, location `("main.rs", 42)`, channel
Stable — yields exactly those record fields. -/
theorem c5_payload_message :
    (∀ s, payloadMessage (PanicPayload.strRef s) = s) ∧
    (∀ s, payloadMessage (PanicPayload.strOwned s) = s) ∧
    payloadMessage PanicPayload.other = "Box<Any>" ∧
    (∀ (is_pty : Bool) (av : String) (inst : Option String) (sess : String)
        (frames : List (List (Option String))) (arch : String) (now : Int)
        (ts ld : String) (o : IoOutcomes) (col : Nat),
      ∃ fx record,
        initPanicHookHandler is_pty ReleaseChannel.stable av inst sess
            (some "worker-3")
            { payload := PanicPayload.strRef "boom",
              location := some { file := "main.rs", line := 42, column := col } }
            frames arch now ts ld o = some (fx, some record) ∧
        record.payload = "boom" ∧
        record.thread = "worker-3" ∧
        record.location_data = some { file := "main.rs", line := 42 } ∧
        record.release_channel = "Stable") := by
  refine ⟨fun s => rfl, fun s => rfl, rfl, ?_⟩
  intro is_pty av inst sess frames arch now ts ld o col
  exact ⟨_, _, rfl, rfl, rfl, rfl, rfl⟩

/-- C1: among any N ≥ 1 concurrent invocations of the panic hook — the SeqCst
fetch-add handing each a distinct pre-increment value below N — exactly one
(the observer of 0) proceeds to report, and every observer of a positive
value enters the yield loop and never returns. -/
theorem c1_single_reporter (N : Nat) (hN : 1 ≤ N) (obs : Fin N → Fin N)
    (hinj : Function.Injective obs) :
    (∃! i : Fin N, hookEntry (obs i).val = HookOutcome.reports) ∧
    ∀ j : Fin N, 0 < (obs j).val →
      hookEntry (obs j).val = HookOutcome.loopsForever := by
  constructor
  · obtain ⟨i, hi⟩ := Finite.surjective_of_injective hinj ⟨0, hN⟩
    refine ⟨i, ?_, ?_⟩
    · show hookEntry (obs i).val = HookOutcome.reports
      rw [hi]
      rfl
    · intro j hj
      replace hj : hookEntry (obs j).val = HookOutcome.reports := hj
      apply hinj
      rw [hi]
      have hval : (obs j).val = 0 := by
        by_contra hne
        have hloop : hookEntry (obs j).val = HookOutcome.loopsForever := by
          unfold hookEntry
          rw [if_pos (Nat.pos_of_ne_zero hne)]
        rw [hloop] at hj
        exact HookOutcome.noConfusion hj
      exact Fin.ext hval
  · intro j hjpos
    unfold hookEntry
    rw [if_pos hjpos]

/-- Witness for C1 at N = 2 with the identity observation order. -/
theorem c1_single_reporter_witness :
    (∃! i : Fin 2, hookEntry ((id i : Fin 2)).val = HookOutcome.reports) ∧
    ∀ j : Fin 2, 0 < ((id j : Fin 2)).val →
      hookEntry ((id j : Fin 2)).val = HookOutcome.loopsForever :=
  c1_single_reporter 2 (by decide) id (fun a b h => h)

/-- C2: under a consumer that never drains the capacity-3 heartbeat channel,
the watchdog's push first fails on the interval after the channel saturates
(interval capacity + 1), at which point exactly one SIGUSR2 is delivered and
the loop exits permanently; no run ever delivers a second signal. -/
theorem c2_watchdog_first_hang (n : Nat) :
    (watchdogRun n).signals ≤ 1 ∧
    ((watchdogRun n).signals = 1 ↔ channelCapacity + 1 ≤ n) ∧
    (channelCapacity + 1 ≤ n → (watchdogRun n).stopped = true) ∧
    (n ≤ channelCapacity → (watchdogRun n).queued = n ∧ (watchdogRun n).signals = 0) ∧
    ((watchdogRun n).stopped = true → watchdogRun (n + 1) = watchdogRun n) := by
  have hcap : channelCapacity = 3 := rfl
  rcases Nat.lt_or_ge n 4 with h4 | h4
  · rw [hcap]
    interval_cases n <;> decide
  · have hc := watchdogRun_closed n
    have hc1 := watchdogRun_closed (n + 1)
    rw [hcap] at hc hc1
    rw [if_neg (by omega)] at hc
    rw [if_neg (by omega)] at hc1
    rw [hcap, hc, hc1]
    exact ⟨by decide, ⟨fun _ => h4, fun _ => rfl⟩, fun _ => rfl,
      fun hle => absurd hle (by omega), fun _ => rfl⟩

/-- Witness for C2 after five intervals. -/
theorem c2_watchdog_first_hang_witness :
    (watchdogRun 5).signals ≤ 1 ∧
    ((watchdogRun 5).signals = 1 ↔ channelCapacity + 1 ≤ 5) ∧
    (channelCapacity + 1 ≤ 5 → (watchdogRun 5).stopped = true) ∧
    (5 ≤ channelCapacity → (watchdogRun 5).queued = 5 ∧ (watchdogRun 5).signals = 0) ∧
    ((watchdogRun 5).stopped = true → watchdogRun (5 + 1) = watchdogRun 5) :=
  c2_watchdog_first_hang 5

/-- C6: on every non-development channel the hook builds the record and then:
the trace ends in an unconditional process abort and contains no clean exit;
any panic-file write happens only when stdout is not a pty, to the
`<logs_dir>/zed-<timestamp>.panic` path, with the single-line serialization
of the record; the file is opened append+create; when serialization and open
succeed the line is written and the file flushed even if the write fails; and
every serialize/open/write/flush failure is merely logged. -/
theorem c6_persistence_and_abort (ch : ReleaseChannel)
    (hch : ch ≠ ReleaseChannel.dev) (is_pty : Bool) (av : String)
    (inst : Option String) (sess : String) (tn : Option String)
    (info : PanicInfo) (frames : List (List (Option String))) (arch : String)
    (now : Int) (ts ld : String) (o : IoOutcomes) :
    ∃ fx record,
      initPanicHookHandler is_pty ch av inst sess tn info frames arch now ts ld o
        = some (fx, some record) ∧
      ((fx.getLast? = some Effect.abortProcess ∧
        (∀ code, Effect.exitProcess code ∉ fx) ∧
        (∀ path c, Effect.writePanicLine path c ∈ fx →
          is_pty = false ∧ path = panicFilePath ld ts ∧ c = serializePanic record) ∧
        (∀ path a c, Effect.openPanicFile path a c ∈ fx →
          path = panicFilePath ld ts ∧ a = true ∧ c = true) ∧
        (is_pty = false → o.serializeOk = true → o.openOk = true →
          Effect.writePanicLine (panicFilePath ld ts) (serializePanic record) ∈ fx ∧
            Effect.flushPanicFile (panicFilePath ld ts) ∈ fx) ∧
        (o.serializePrettyOk = false → Effect.logIoError ∈ fx) ∧
        (is_pty = false → o.serializeOk = false → Effect.logIoError ∈ fx) ∧
        (is_pty = false → o.serializeOk = true → o.openOk = false →
          Effect.logIoError ∈ fx) ∧
        (is_pty = false → o.serializeOk = true → o.openOk = true →
          o.writeOk = false → Effect.logIoError ∈ fx) ∧
        (is_pty = false → o.serializeOk = true → o.openOk = true →
          o.flushOk = false → Effect.logIoError ∈ fx))) := by
  refine ⟨hookTail is_pty o ld ts
      (buildPanic (tn.getD "<unnamed>") (payloadMessage info.payload)
        info.location av ch arch now (resolveFrameNames frames) inst sess),
    buildPanic (tn.getD "<unnamed>") (payloadMessage info.payload)
      info.location av ch arch now (resolveFrameNames frames) inst sess,
    ?_, hookTail_spec is_pty o ld ts _⟩
  rw [initPanicHookHandler]
  simp only [if_neg hch]

/-- Witness for C6 on the Stable channel with all I/O succeeding. -/
theorem c6_persistence_and_abort_witness :
    ∃ fx record,
      initPanicHookHandler false ReleaseChannel.stable "1.0" none "s"
          (some "main")
          { payload := PanicPayload.strRef "boom", location := none }
          [] "x86_64" 0 "t" "/logs"
          { serializePrettyOk := true, serializeOk := true, openOk := true,
            writeOk := true, flushOk := true }
        = some (fx, some record) ∧
      fx.getLast? = some Effect.abortProcess ∧
      Effect.writePanicLine (panicFilePath "/logs" "t") (serializePanic record) ∈ fx := by
  obtain ⟨fx, record, heq, hspec⟩ := c6_persistence_and_abort
    ReleaseChannel.stable (by decide) false "1.0" none "s" (some "main")
    { payload := PanicPayload.strRef "boom", location := none }
    [] "x86_64" 0 "t" "/logs"
    { serializePrettyOk := true, serializeOk := true, openOk := true,
      writeOk := true, flushOk := true }
  exact ⟨fx, record, heq, hspec.1, (hspec.2.2.2.2.1 rfl rfl rfl).1⟩

/-- C7: on the Dev channel, for a panic that carries a source location, the
hook prints thread name, message, file, line, column and the capture to
standard error and exits with the distinguished non-zero code -1; it builds
no record, writes no panic file and does not abort. -/
theorem c7_dev_prints_and_exits (is_pty : Bool) (av : String)
    (inst : Option String) (sess : String) (tn : Option String)
    (p : PanicPayload) (loc : Location) (frames : List (List (Option String)))
    (arch : String) (now : Int) (ts ld : String) (o : IoOutcomes) :
    initPanicHookHandler is_pty ReleaseChannel.dev av inst sess tn
        { payload := p, location := some loc } frames arch now ts ld o
      = some ([Effect.eprintPanic (tn.getD "<unnamed>") (payloadMessage p)
                 loc.file loc.line loc.column frames,
               Effect.exitProcess (-1)], none) ∧
    (-1 : Int) ≠ 0 ∧
    (∀ path c, Effect.writePanicLine path c ∉
      [Effect.eprintPanic (tn.getD "<unnamed>") (payloadMessage p)
         loc.file loc.line loc.column frames, Effect.exitProcess (-1)]) ∧
    (∀ path a c, Effect.openPanicFile path a c ∉
      [Effect.eprintPanic (tn.getD "<unnamed>") (payloadMessage p)
         loc.file loc.line loc.column frames, Effect.exitProcess (-1)]) ∧
    Effect.abortProcess ∉
      [Effect.eprintPanic (tn.getD "<unnamed>") (payloadMessage p)
         loc.file loc.line loc.column frames, Effect.exitProcess (-1)] := by
  refine ⟨rfl, by decide, ?_, ?_, ?_⟩ <;> simp

/-- Witness for C7 at a concrete Dev-channel panic. -/
theorem c7_dev_prints_and_exits_witness :
    initPanicHookHandler true ReleaseChannel.dev "1.0" none "s" (some "main")
        { payload := PanicPayload.strRef "boom",
          location := some { file := "main.rs", line := 42, column := 7 } }
        [] "x86_64" 0 "t" "/logs"
        { serializePrettyOk := true, serializeOk := true, openOk := true,
          writeOk := true, flushOk := true }
      = some ([Effect.eprintPanic "main" "boom" "main.rs" 42 7 [],
               Effect.exitProcess (-1)], none) ∧
    (-1 : Int) ≠ 0 :=
  ⟨(c7_dev_prints_and_exits true "1.0" none "s" (some "main")
      (PanicPayload.strRef "boom") { file := "main.rs", line := 42, column := 7 }
      [] "x86_64" 0 "t" "/logs"
      { serializePrettyOk := true, serializeOk := true, openOk := true,
        writeOk := true, flushOk := true }).1,
   (c7_dev_prints_and_exits true "1.0" none "s" (some "main")
      (PanicPayload.strRef "boom") { file := "main.rs", line := 42, column := 7 }
      [] "x86_64" 0 "t" "/logs"
      { serializePrettyOk := true, serializeOk := true, openOk := true,
        writeOk := true, flushOk := true }).2.1⟩

/-- C8 counterexample: at a concrete macOS-style input the built record's
`os_name` is the fixed empty string — not the collector's `"macOS"` — and its
`os_version` is the fixed `none`, refuting that these fields are populated
from the system-facts collector. -/
theorem c8_os_fields_counterexample :
    (buildPanic "worker-3" "boom"
        (some { file := "main.rs", line := 42, column := 7 }) "1.0.0"
        ReleaseChannel.stable "aarch64" 0 [] none "session").os_name = "" ∧
    SystemSpecs.os_name TargetOS.macos "" = "macOS" ∧
    (buildPanic "worker-3" "boom"
        (some { file := "main.rs", line := 42, column := 7 }) "1.0.0"
        ReleaseChannel.stable "aarch64" 0 [] none "session").os_name
      ≠ SystemSpecs.os_name TargetOS.macos "" ∧
    (buildPanic "worker-3" "boom"
        (some { file := "main.rs", line := 42, column := 7 }) "1.0.0"
        ReleaseChannel.stable "aarch64" 0 [] none "session").os_version = none := by
  refine ⟨rfl, rfl, ?_, rfl⟩
  decide

/-- C8 amended: every FailureRecord built by the panic hook carries the fixed
values `os_name = ""` and `os_version = None`; the system-facts collector is
not consulted on the panic path. -/
theorem c8_os_fields_amended (tn payload : String) (loc : Option Location)
    (av : String) (ch : ReleaseChannel) (arch : String) (now : Int)
    (bt : List String) (inst : Option String) (sess : String) :
    (buildPanic tn payload loc av ch arch now bt inst sess).os_name = "" ∧
    (buildPanic tn payload loc av ch arch now bt inst sess).os_version = none :=
  ⟨rfl, rfl⟩

/-- C9: the hang monitor's setup effects are nonempty exactly when the target
is macOS and the channel is Dev, Nightly or Preview; on Stable the monitor
returns immediately, installing nothing. -/
theorem c9_hang_monitor_gating :
    (∀ (os : TargetOS) (ch : ReleaseChannel),
      init os ch ≠ [] ↔
        os = TargetOS.macos ∧
          (ch = ReleaseChannel.dev ∨ ch = ReleaseChannel.nightly ∨
            ch = ReleaseChannel.preview)) ∧
    monitor_main_thread_hangs ReleaseChannel.stable = [] ∧
    (∀ os, init os ReleaseChannel.stable = []) := by
  refine ⟨?_, rfl, ?_⟩
  · intro os ch
    cases os <;> cases ch <;> simp [init, monitor_main_thread_hangs]
  · intro os
    cases os <;> rfl

/-- C10: the Dev branch's unconditional unwrap of the source location makes
the handler total only when a location is present: with a Dev channel and a
location-less panic the handler itself fails; with any location present it
succeeds. -/
theorem c10_dev_unwrap_location (is_pty : Bool) (av : String)
    (inst : Option String) (sess : String) (tn : Option String)
    (p : PanicPayload) (frames : List (List (Option String))) (arch : String)
    (now : Int) (ts ld : String) (o : IoOutcomes) :
    initPanicHookHandler is_pty ReleaseChannel.dev av inst sess tn
        { payload := p, location := none } frames arch now ts ld o = none ∧
    ∀ loc, (initPanicHookHandler is_pty ReleaseChannel.dev av inst sess tn
        { payload := p, location := some loc } frames arch now ts ld o).isSome
          = true :=
  ⟨rfl, fun _ => rfl⟩

end Reliability
